import Mathlib

/-!
# Verification of the arte.tv dispatch-and-resolution pipeline

Shallow embedding of `src/youtube_dl/extractor/arte.py` (classes `ArteTVBaseIE`,
`ArteTVIE`, `ArteTVEmbedIE`, `ArteTVPlaylistIE`, `ArteTVCategoryIE`).

URLs are modelled as `String` / `List Char`; each class's `_VALID_URL` regular
expression (matched by the host with Python `re.match`, i.e. anchored at the
start, unanchored at the end) is translated into a deterministic matcher.  All
the regexes involved are backtracking-free on their alphabets (every literal,
alternation and repetition boundary is decided by the next character), so the
deterministic translation computes exactly the regex's match.  Character
classes are modelled over ASCII (`\d` = `0`-`9`, `\w` = `[A-Za-z0-9_]`,
`\s` = ASCII whitespace), which covers every URL any claim quantifies over.
-/

namespace Arte

/-- ASCII decimal digit, Python `\d` (ASCII model). -/
def isDigitC (c : Char) : Bool := '0' ≤ c && c ≤ '9'

/-- Python `\w` word character (ASCII model): letters, digits, underscore. -/
def isWordC (c : Char) : Bool :=
  ('A' ≤ c && c ≤ 'Z') || ('a' ≤ c && c ≤ 'z') || isDigitC c || c = '_'

/-- Python `\s` whitespace (ASCII model). -/
def isWsC (c : Char) : Bool :=
  c = ' ' || c = '\t' || c = '\n' || c = '\r' || c = '\x0b' || c = '\x0c'

/-- Character of the category path class `[\w-]` (word character or dash). -/
def isPathC (c : Char) : Bool := isWordC c || c = '-'

/-- Consume the literal character sequence `p` from the front of `s`
(regex literal). Returns the rest on success. -/
def lit : List Char → List Char → Option (List Char)
  | [], s => some s
  | _ :: _, [] => none
  | p :: ps, c :: s => if c = p then lit ps s else none

/-- Optionally consume the literal `p` (regex `(?:p)?` for a literal `p` whose
first character decides the match, as in `(?:www\.)?` and `https?`). -/
def optLit (p s : List Char) : List Char :=
  match lit p s with
  | some r => r
  | none => s

/-- `https?://` — scheme part shared by all four `_VALID_URL` patterns. -/
def schemeP (s : List Char) : Option (List Char) :=
  (lit "http".data s).bind fun r => lit "://".data (optLit "s".data r)

/-- `https?://(?:www\.)?arte\.tv/` — shared by the Video (first alternative),
Playlist, Category and Embed patterns. -/
def afterHost (s : List Char) : Option (List Char) :=
  (schemeP s).bind fun r => lit "arte.tv/".data (optLit "www.".data r)

/-- `(?P<lang>fr|de|en|es|it|pl)` — the `_ARTE_LANGUAGES` alternation.  All
branches are two characters and pairwise distinct, so the ordered alternation
is decided by the first two characters. -/
def langP (s : List Char) : Option (String × List Char) :=
  match s with
  | c1 :: c2 :: t =>
    if c1 = 'f' ∧ c2 = 'r' then some ("fr", t)
    else if c1 = 'd' ∧ c2 = 'e' then some ("de", t)
    else if c1 = 'e' ∧ c2 = 'n' then some ("en", t)
    else if c1 = 'e' ∧ c2 = 's' then some ("es", t)
    else if c1 = 'i' ∧ c2 = 't' then some ("it", t)
    else if c1 = 'p' ∧ c2 = 'l' then some ("pl", t)
    else none
  | _ => none

/-- `(?P<lang>…)/videos` — language segment followed by the `/videos` literal,
shared by the Video (first alternative), Playlist and Category patterns. -/
def langVideosP (s : List Char) : Option (String × List Char) :=
  (langP s).bind fun lt => (lit "/videos".data lt.2).map fun u => (lt.1, u)

/-- `\d{n}` (exact repetition): consume exactly `n` digits, returning them. -/
def takeDigits : Nat → List Char → Option (List Char × List Char)
  | 0, s => some ([], s)
  | _ + 1, [] => none
  | n + 1, c :: s =>
    if isDigitC c then (takeDigits n s).map fun dr => (c :: dr.1, dr.2) else none

/-- Greedily drop leading digits (for `\d+` followed by a non-digit literal). -/
def dropDigits : List Char → List Char
  | [] => []
  | c :: s => if isDigitC c then dropDigits s else c :: s

/-- `\d+`: at least one digit, consumed greedily. -/
def digitsOne (s : List Char) : Option (List Char) :=
  match s with
  | [] => none
  | c :: t => if isDigitC c then some (dropDigits t) else none

/-- `(?P<id>\d{6}-\d{3}-[AF])` — the video id group of `ArteTVIE._VALID_URL`.
Returns the matched id text and the rest of the input. -/
def idP (s : List Char) : Option (String × List Char) :=
  (takeDigits 6 s).bind fun d6 =>
  (lit "-".data d6.2).bind fun r1 =>
  (takeDigits 3 r1).bind fun d3 =>
  match d3.2 with
  | '-' :: c :: r2 =>
    if c = 'A' ∨ c = 'F' then
      some (String.mk (d6.1 ++ '-' :: (d3.1 ++ ['-', c])), r2)
    else none
  | _ => none

/-- First alternative of `ArteTVIE._VALID_URL`:
`https?://(?:www\.)?arte\.tv/(?P<lang>…)/videos/(?P<id>\d{6}-\d{3}-[AF])`.
Returns `(lang, id)`. -/
def videoAlt1 (s : List Char) : Option (String × String) :=
  (afterHost s).bind fun r1 =>
  (langVideosP r1).bind fun lu =>
  (lit "/".data lu.2).bind fun u1 =>
  (idP u1).map fun p => (lu.1, p.1)

/-- Second alternative of `ArteTVIE._VALID_URL`:
`https?://api\.arte\.tv/api/player/v\d+/config/(?P<lang_2>…)/(?P<id>…)`. -/
def videoAlt2 (s : List Char) : Option (String × String) :=
  (schemeP s).bind fun r =>
  (lit "api.arte.tv/api/player/v".data r).bind fun r1 =>
  (digitsOne r1).bind fun r2 =>
  (lit "/config/".data r2).bind fun r3 =>
  (langP r3).bind fun lt =>
  (lit "/".data lt.2).bind fun u1 =>
  (idP u1).map fun p => (lt.1, p.1)

/-- `re.match(ArteTVIE._VALID_URL, url)`, yielding the `lang` (or `lang_2`)
and `id` groups.  The two alternatives are distinguished by the first
character after the scheme (`w`/`a` of `arte.tv` vs `api.`), so the ordered
alternation is deterministic. -/
def videoParse (url : String) : Option (String × String) :=
  match videoAlt1 url.data with
  | some x => some x
  | none => videoAlt2 url.data

/-- `ArteTVIE.suitable(url)`. -/
def videoSuitable (url : String) : Bool := (videoParse url).isSome

/-- `re.match(ArteTVPlaylistIE._VALID_URL, url)`:
`https?://(?:www\.)?arte\.tv/(?P<lang>…)/videos/(?P<id>RC-\d{6})`. -/
def playlistParse (url : String) : Option (String × String) :=
  (afterHost url.data).bind fun r1 =>
  (langVideosP r1).bind fun lu =>
  (lit "/RC-".data lu.2).bind fun w =>
  (takeDigits 6 w).map fun ds => (lu.1, String.mk ('R' :: 'C' :: '-' :: ds.1))

/-- `ArteTVPlaylistIE.suitable(url)`. -/
def playlistSuitable (url : String) : Bool := (playlistParse url).isSome

/-- Scanner for the Embed pattern's `.*?\bjson_url=.+` tail: the gap before
`json_url=` may hold any non-newline characters (`.` does not match `\n`), the
occurrence must start at a word boundary (`prev` is the character immediately
before the scan position, `?` at the start), and at least one non-newline
character must follow (`.+`). -/
def jsonScan (prev : Char) : List Char → Bool
  | [] => false
  | c :: s =>
    (!isWordC prev &&
      (match lit "json_url=".data (c :: s) with
       | some (d :: _) => d ≠ '\n'
       | _ => false)) ||
    (c ≠ '\n' && jsonScan c s)

/-- `re.match(ArteTVEmbedIE._VALID_URL, url)`:
`https?://(?:www\.)?arte\.tv/player/v\d+/index\.php\?.*?\bjson_url=.+`. -/
def embedSuitable (url : String) : Bool :=
  match (afterHost url.data).bind fun r1 =>
        (lit "player/v".data r1).bind fun r2 =>
        (digitsOne r2).bind fun r3 =>
        lit "/index.php?".data r3 with
  | some r4 => jsonScan '?' r4
  | none => false

/-- Four-state scanner for the Category pattern's trailing
`(?P<id>[\w-]+(?:/[\w-]+)*)/?\s*$`.  State 0: a `[\w-]` segment character is
required; state 1: inside a segment; state 2: just after a `/`; state 3: in
the whitespace tail.  Since `[\w-]`, `/` and `\s` are pairwise disjoint
classes, the regex's backtracking search is equivalent to this scan. -/
def catScan : Nat → List Char → Bool
  | 0, [] => false
  | _, [] => true
  | 0, c :: s => if isPathC c then catScan 1 s else false
  | 1, c :: s =>
    if isPathC c then catScan 1 s
    else if c = '/' then catScan 2 s
    else if isWsC c then catScan 3 s
    else false
  | 2, c :: s =>
    if isPathC c then catScan 1 s
    else if isWsC c then catScan 3 s
    else false
  | _, c :: s => if isWsC c then catScan 3 s else false

/-- Drop one trailing `/` from a character list, if present. -/
def dropTrailingSlash (l : List Char) : List Char :=
  match l.reverse with
  | '/' :: r => r.reverse
  | _ => l

/-- `re.match(ArteTVCategoryIE._VALID_URL, url)`:
`https?://(?:www\.)?arte\.tv/(?P<lang>…)/videos/(?P<id>[\w-]+(?:/[\w-]+)*)/?\s*$`,
returning the `lang` and `id` groups.  On a successful match the `id` group is
the maximal run of `[\w-]`/`/` characters minus the optional trailing slash. -/
def categoryParse (url : String) : Option (String × String) :=
  (afterHost url.data).bind fun r1 =>
  (langVideosP r1).bind fun lu =>
  (lit "/".data lu.2).bind fun w =>
  if catScan 0 w then
    some (lu.1, String.mk (dropTrailingSlash (w.takeWhile fun c => isPathC c || c = '/')))
  else none

/-- `ArteTVCategoryIE.suitable(url)`:
`not any(ie.suitable(url) for ie in (ArteTVIE, ArteTVPlaylistIE)) and
super().suitable(url)`. -/
def categorySuitable (url : String) : Bool :=
  !(videoSuitable url || playlistSuitable url) && (categoryParse url).isSome

/-! ## JSON documents and Python-style access

Fetched documents are JSON values; numbers are modelled as integers (no claim
involves fractional numbers).  Python subscription `d[k]` is fallible
(`KeyError` on a missing key, `TypeError` on a non-dict), `d.get(k)` returns
`None`; both are modelled explicitly. -/

inductive Json where
  | null : Json
  | bool : Bool → Json
  | num : Int → Json
  | str : String → Json
  | arr : List Json → Json
  | obj : List (String × Json) → Json

/-- The Python exceptions the embedded code can raise.  `keyError`/`typeError`/
`indexError`/`valueError`/`attributeError` are the uncaught exceptions of the
extractors (the spec's `MalformedResponse` family); `invariantViolation`
models reaching a resolver whose `suitable` predicate did not match (the
spec's `ClassificationInvariantViolation`). -/
inductive Err where
  | keyError : String → Err
  | typeError : Err
  | indexError : Err
  | valueError : Err
  | attributeError : Err
  | invariantViolation : Err
deriving DecidableEq, Repr

/-- Python `d[k]`: the value for `k` in a dict, `KeyError` when absent,
`TypeError` when `d` is not a dict. -/
def getKey (j : Json) (k : String) : Except Err Json :=
  match j with
  | .obj kvs =>
    match kvs.lookup k with
    | some v => .ok v
    | none => .error (.keyError k)
  | _ => .error .typeError

/-- Python `d.get(k)` on a dict: `None` when absent.  (Only applied to values
already known to be dicts, or inside `try_get`, which swallows the exception —
both give `None`-like behaviour on non-dicts.) -/
def jget (j : Json) (k : String) : Option Json :=
  match j with
  | .obj kvs => kvs.lookup k
  | _ => none

/-- Python truthiness of a JSON value. -/
def truthy : Json → Bool
  | .null => false
  | .bool b => b
  | .num n => n ≠ 0
  | .str s => s ≠ ""
  | .arr l => !l.isEmpty
  | .obj l => !l.isEmpty

/-- Python `for x in j`: iterating a list yields its elements, a string its
characters, a dict its keys; anything else raises `TypeError`. -/
def pyIter : Json → Except Err (List Json)
  | .arr l => .ok l
  | .str s => .ok (s.data.map fun c => .str (String.mk [c]))
  | .obj kvs => .ok (kvs.map fun kv => .str kv.1)
  | _ => .error .typeError

/-- Python `l[0]`: first element of a list (`IndexError` when empty), first
character of a string, `KeyError` for a dict (integer key `0` is not a string
key), `TypeError` otherwise. -/
def jindex0 : Json → Except Err Json
  | .arr (x :: _) => .ok x
  | .arr [] => .error .indexError
  | .str ⟨c :: _⟩ => .ok (.str (String.mk [c]))
  | .str ⟨[]⟩ => .error .indexError
  | .obj _ => .error (.keyError "0")
  | _ => .error .typeError

/-- Monadic map over `Except` in source order, stopping at the first error
(a Python `for` loop whose body can raise). -/
def mapExcept (f : α → Except Err β) : List α → Except Err (List β)
  | [] => .ok []
  | a :: as =>
    match f a with
    | .error e => .error e
    | .ok b =>
      match mapExcept f as with
      | .error e => .error e
      | .ok bs => .ok (b :: bs)

/-- Python `a or b` for two optional strings where `None` and `""` are falsy
(`_og_search_title(..., default=None) or _html_search_regex(..., default=None)`). -/
def pyOr (a b : Option String) : Option String :=
  match a with
  | some s => if s = "" then b else some s
  | none => b

/-- Python `a or b` for two optional JSON values
(`collection.get('shortDescription') or collection.get('teaserText')`). -/
def pyOrJ (a b : Option Json) : Option Json :=
  match a with
  | some x => if truthy x then some x else b
  | none => b

/-- Python `str(j)` as used by the `'%s, %s'` interpolation of `format_note`
(only string codes/labels appear in any claim; other values are given a
printable rendering). -/
def jstr : Json → String
  | .null => "None"
  | .bool b => if b then "True" else "False"
  | .num n => toString n
  | .str s => s
  | .arr _ => "[...]"
  | .obj _ => "{...}"

/-! ## Video Resolver (`ArteTVIE._real_extract`) -/

/-- Modelled from the spec: the host helper `qualities(['MQ','HQ','EQ','SQ'])`
assigns each quality code its index in the fixed ascending order, and codes
outside the set the sentinel "unranked" value `-1`.  (The source computes this
function as `qfunc` at line 65 but never applies it.) -/
def qualities (order : List String) (q : String) : Int :=
  match order.findIdx? (· = q) with
  | some i => (i : Int)
  | none => -1

/-- The format dict built for one stream at lines 80-98: keys `format_id`
(the literal `0`), `format_note` and `url`.  The `quality` field models the
dict key of the same name, which the commented-out line 88 would set; the
source never writes it, so it is `none` for every built format. -/
structure FormatDict where
  format_id : Nat
  format_note : String
  url : Json
  quality : Option Int

/-- Loop body at lines 79-98: `stream['mainQuality']['code']`,
`stream['mainQuality']['label']`, `stream['url']`, evaluated in source
order. -/
def buildFormat (stream : Json) : Except Err FormatDict :=
  match getKey stream "mainQuality" with
  | .error e => .error e
  | .ok mq =>
  match getKey mq "code" with
  | .error e => .error e
  | .ok code =>
  match getKey mq "label" with
  | .error e => .error e
  | .ok label =>
  match getKey stream "url" with
  | .error e => .error e
  | .ok u =>
    .ok { format_id := 0
          format_note := jstr code ++ ", " ++ jstr label
          url := u
          quality := none }

/-- Stable ascending insertion: `f` goes after every earlier element whose key
is strictly below `f`'s, and before the first whose key is not. -/
def insertAsc (keyLt : FormatDict → FormatDict → Bool) (f : FormatDict) :
    List FormatDict → List FormatDict
  | [] => [f]
  | g :: gs => if keyLt g f then g :: insertAsc keyLt f gs else f :: g :: gs

/-- Stable insertion sort (ascending). -/
def stableSortAsc (keyLt : FormatDict → FormatDict → Bool) :
    List FormatDict → List FormatDict
  | [] => []
  | f :: fs => insertAsc keyLt f (stableSortAsc keyLt fs)

/-- Modelled from the spec: the host's `_sort_formats` orders the built
formats ascending by their `quality` value, missing values counting as the
sentinel `-1`; the sort is stable, so formats with equal keys keep their
input order. -/
def sort_formats (fs : List FormatDict) : List FormatDict :=
  stableSortAsc (fun a b => a.quality.getD (-1) < b.quality.getD (-1)) fs

/-- `datetime.fromisoformat(s).date()` at line 63: requires a string whose
first ten characters have the ISO calendar-date shape and returns that date
portion.  (Validation of the time-of-day part and of month/day ranges is not
modelled; no claim exercises a present-but-malformed timestamp.) -/
def isoDate (j : Json) : Except Err String :=
  match j with
  | .str s =>
    match s.data with
    | y1 :: y2 :: y3 :: y4 :: '-' :: m1 :: m2 :: '-' :: d1 :: d2 :: _ =>
      if isDigitC y1 && isDigitC y2 && isDigitC y3 && isDigitC y4 &&
         isDigitC m1 && isDigitC m2 && isDigitC d1 && isDigitC d2 then
        .ok (String.mk (s.data.take 10))
      else .error .valueError
    | _ => .error .valueError
  | _ => .error .typeError

/-- The record returned by `ArteTVIE._real_extract` (lines 102-109).
`upload_date` holds the calendar-date portion of `rights.begin`. -/
structure VideoRecord where
  id : Json
  title : Json
  description : Json
  upload_date : String
  thumbnail : Json
  formats : List FormatDict

/-- Lines 58-109 of `ArteTVIE._real_extract`, applied to the fetched config
document `info`, in the source's evaluation order: `info['data']['attributes']`,
`attributes['rights']['begin']` (parsed), `attributes['streams']` (iterated,
one format per stream), `_sort_formats`, then the result dict —
`metadata['providerId'] or video_id`, `metadata['title']`,
`metadata['description']`, `metadata['images'][0]['url']`. -/
def extractFromConfig (video_id : String) (info : Json) : Except Err VideoRecord :=
  match getKey info "data" with
  | .error e => .error e
  | .ok data =>
  match getKey data "attributes" with
  | .error e => .error e
  | .ok attributes =>
  match getKey attributes "rights" with
  | .error e => .error e
  | .ok rights =>
  match getKey rights "begin" with
  | .error e => .error e
  | .ok beginJ =>
  match isoDate beginJ with
  | .error e => .error e
  | .ok upload_date =>
  match getKey attributes "streams" with
  | .error e => .error e
  | .ok streamsJ =>
  match pyIter streamsJ with
  | .error e => .error e
  | .ok streams =>
  match mapExcept buildFormat streams with
  | .error e => .error e
  | .ok formats0 =>
  match getKey attributes "metadata" with
  | .error e => .error e
  | .ok metadata =>
  match getKey metadata "providerId" with
  | .error e => .error e
  | .ok providerId =>
  match getKey metadata "title" with
  | .error e => .error e
  | .ok title =>
  match getKey metadata "description" with
  | .error e => .error e
  | .ok description =>
  match getKey metadata "images" with
  | .error e => .error e
  | .ok images =>
  match jindex0 images with
  | .error e => .error e
  | .ok firstImage =>
  match getKey firstImage "url" with
  | .error e => .error e
  | .ok thumbnail =>
    .ok { id := if truthy providerId then providerId else .str video_id
          title := title
          description := description
          upload_date := upload_date
          thumbnail := thumbnail
          formats := sort_formats formats0 }

/-- The fetch collaborator `_download_json('{API_BASE}/config/{lang}/{id}', id)`:
the fetched document is a function of the language and the video id. -/
def resolveVideo (fetch : String → String → Json) (lang vid : String) :
    Except Err VideoRecord :=
  extractFromConfig vid (fetch lang vid)

/-- `ArteTVIE._real_extract(url)`: match `_VALID_URL`, take the `id` and
`lang`/`lang_2` groups, fetch the config document and build the record.  An
unmatched URL models the spec's classification-invariant violation. -/
def resolveVideoUrl (fetch : String → String → Json) (url : String) :
    Except Err VideoRecord :=
  match videoParse url with
  | some lv => resolveVideo fetch lv.1 lv.2
  | none => .error .invariantViolation

/-! ## Playlist Aggregator (`ArteTVPlaylistIE._real_extract`) -/

/-- Modelled from the spec: the host helper `url_or_none` keeps a present,
non-empty string URL and rejects any other value; the host's finer URL-shape
validation is not modelled (no claim exercises a non-empty string that the
host would reject). -/
def url_or_none (j : Option Json) : Option String :=
  match j with
  | some (.str s) => if s = "" then none else some s
  | _ => none

/-- Python `str.strip()`: remove leading and trailing whitespace. -/
def pyStrip (s : String) : String :=
  String.mk (((s.data.dropWhile isWsC).reverse.dropWhile isWsC).reverse)

/-- Numeric value of a run of decimal digits. -/
def digitsVal (ds : List Char) : Int :=
  ds.foldl (fun a c => a * 10 + ((c.toNat - '0'.toNat : Nat) : Int)) 0

/-- Python `int(s)` for a string: optional surrounding whitespace, optional
sign, decimal digits; `None` (a swallowed `ValueError`) otherwise. -/
def pyToInt (s : String) : Option Int :=
  match ((s.data.dropWhile isWsC).reverse.dropWhile isWsC).reverse with
  | [] => none
  | '-' :: ds =>
    if ds ≠ [] ∧ ds.all isDigitC then some (-(digitsVal ds)) else none
  | '+' :: ds =>
    if ds ≠ [] ∧ ds.all isDigitC then some (digitsVal ds) else none
  | ds =>
    if ds.all isDigitC then some (digitsVal ds) else none

/-- Modelled from the spec: the host helper `int_or_none` coerces a numeric
field (integer, or string of an integer) and drops an unparseable one to
`None` instead of failing. -/
def int_or_none (j : Option Json) : Option Int :=
  match j with
  | some (.num n) => some n
  | some (.str s) => pyToInt s
  | _ => none

/-- `try_get(video, lambda x: x['mainImage']['url'], compat_str)`: the value at
`mainImage.url` when present and a string, else `None` (exceptions are
swallowed by `try_get`). -/
def tryMainImageUrl (video : Json) : Option Json :=
  match jget video "mainImage" with
  | some m =>
    match jget m "url" with
    | some (.str s) => some (.str s)
    | _ => none
  | none => none

/-- One lazy playlist entry (`_type: url_transparent` dict of lines 170-180).
`url` is the resolvable target; the remaining fields are the verbatim-mapped
metadata. -/
structure PlaylistEntry where
  url : String
  id : Option Json
  title : Option Json
  alt_title : Option Json
  thumbnail : Option String
  duration : Option Int
  view_count : Option Int

/-- Field mapping of lines 169-180 for an entry whose target URL `u` has been
determined. -/
def mkPlaylistEntry (video : Json) (u : String) : PlaylistEntry :=
  { url := u
    id := jget video "programId"
    title := jget video "title"
    alt_title := jget video "subtitle"
    thumbnail := url_or_none (tryMainImageUrl video)
    duration := int_or_none (jget video "durationSeconds")
    view_count := int_or_none (jget video "views") }

/-- `isinstance(video, dict)`. -/
def isDict : Json → Bool
  | .obj _ => true
  | _ => false

/-- The `for video in collection['videos']` loop of lines 162-180: skip
non-dict entries, compute
`url_or_none(video.get('url')) or url_or_none(video.get('jsonUrl'))`, skip the
entry when neither exists, else append the mapped entry. -/
def playlistEntries : List Json → List PlaylistEntry
  | [] => []
  | v :: vs =>
    if isDict v then
      match (url_or_none (jget v "url")).orElse fun _ => url_or_none (jget v "jsonUrl") with
      | some u => mkPlaylistEntry v u :: playlistEntries vs
      | none => playlistEntries vs
    else playlistEntries vs

/-- The `playlist_result` of line 183: id, collection title, short description
falling back to teaser text, and the ordered lazy entries. -/
structure CollectionResult where
  id : String
  title : Option Json
  description : Option Json
  entries : List PlaylistEntry

/-- Lines 159-183 of `ArteTVPlaylistIE._real_extract`, applied to the fetched
collection document: `collection['videos']` (`KeyError` when missing) is
iterated into entries; title and description are mapped with `dict.get`. -/
def playlistExtract (playlist_id : String) (collection : Json) :
    Except Err CollectionResult :=
  match getKey collection "videos" with
  | .error e => .error e
  | .ok vj =>
  match pyIter vj with
  | .error e => .error e
  | .ok videos =>
    .ok { id := playlist_id
          title := jget collection "title"
          description := pyOrJ (jget collection "shortDescription") (jget collection "teaserText")
          entries := playlistEntries videos }

/-! ## Category Crawler (`ArteTVCategoryIE._real_extract`)

The page fetch (`_download_webpage`) and the generic HTML metadata helpers
(`_og_search_title`, `_html_search_regex` on the `<title>` element,
`_og_search_description`, `_generic_title`) are external collaborators per the
spec; they enter the model as the inputs `links` (the anchor-`href` matches of
the line 210-212 scan, in document order), `og`, `titleTag`, `ogDesc` and
`generic`. -/

/-- `s.rsplit('|', 1)[0]`: everything before the last `|`, or the whole string
when it has none. -/
def beforeLastBar (s : String) : String :=
  match s.data.reverse.span (· ≠ '|') with
  | (_, []) => s
  | (_, _ :: pre) => String.mk pre.reverse

/-- Lines 220-222: `title = og or titleTag` (first truthy), then
`strip_or_none(title.rsplit('|', 1)[0]) or generic`.  When both sources are
`None`, `title.rsplit` raises `AttributeError`. -/
def categoryTitle (og titleTag : Option String) (generic : String) :
    Except Err String :=
  match pyOr og titleTag with
  | none => .error .attributeError
  | some t =>
    .ok (if pyStrip (beforeLastBar t) = "" then generic else pyStrip (beforeLastBar t))

/-- The `playlist_from_matches` result of lines 224-229: playlist id, resolved
title, optional description, and one lazy pointer per kept link (`entries`
holds the target URLs, in page order). -/
structure CategoryResult where
  id : String
  title : String
  description : Option String
  entries : List String

/-- Lines 205-229 of `ArteTVCategoryIE._real_extract`: re-match `_VALID_URL`
(its failure is the spec's classification-invariant violation), filter the
scanned links — drop the page's own URL, keep those `ArteTVIE` or
`ArteTVPlaylistIE` would accept — and, only when some survive, resolve the
title, build the playlist and attach a truthy og description.  An empty
candidate list falls off the function: `ok none`, Python `None`. -/
def crawlCategory (url : String) (links : List String)
    (og titleTag ogDesc : Option String) (generic : String) :
    Except Err (Option CategoryResult) :=
  match categoryParse url with
  | none => .error .invariantViolation
  | some lp =>
    match links.filter fun v => v ≠ url && (videoSuitable v || playlistSuitable v) with
    | [] => .ok none
    | item :: items =>
      match categoryTitle og titleTag generic with
      | .error e => .error e
      | .ok title =>
        .ok (some
          { id := lp.2
            title := title
            description :=
              match ogDesc with
              | some d => if d = "" then none else some d
              | none => none
            entries := item :: items })

/-! ## Embed (`ArteTVEmbedIE._real_extract`)

`compat_urlparse.parse_qs(compat_urlparse.urlparse(url).query)` is modelled
with percent-decoding over single bytes (no claim uses a multi-byte UTF-8
percent escape) and `&` as the pair separator. -/

/-- `urlparse(url).query`: the text after the first `?` of the pre-fragment
part (empty when there is no `?`). -/
def urlQuery (url : String) : String :=
  match (url.data.takeWhile (· ≠ '#')).dropWhile (· ≠ '?') with
  | [] => ""
  | _ :: q => String.mk q

/-- Hexadecimal digit value for percent-decoding (`none` for a non-hex
character). -/
def hexDigit (c : Char) : Option Nat :=
  let n := c.toNat
  if 48 ≤ n ∧ n ≤ 57 then some (n - 48)
  else if 97 ≤ n ∧ n ≤ 102 then some (n - 87)
  else if 65 ≤ n ∧ n ≤ 70 then some (n - 55)
  else none

/-- `urllib.parse.unquote`: decode `%XX` escapes, leaving invalid escapes
as-is. -/
def percentDecode : List Char → List Char
  | [] => []
  | '%' :: h1 :: h2 :: rest =>
    match hexDigit h1, hexDigit h2 with
    | some v1, some v2 => Char.ofNat (v1 * 16 + v2) :: percentDecode rest
    | _, _ => '%' :: percentDecode (h1 :: h2 :: rest)
  | c :: rest => c :: percentDecode rest

/-- One `parse_qsl` piece: `unquote(text.replace('+', ' '))`. -/
def decodePiece (l : List Char) : String :=
  String.mk (percentDecode (l.map fun c => if c = '+' then ' ' else c))

/-- Python `qs.split('&')`. -/
def splitAmp : List Char → List (List Char)
  | [] => [[]]
  | c :: rest =>
    if c = '&' then [] :: splitAmp rest
    else
      match splitAmp rest with
      | [] => [[c]]
      | p :: ps => (c :: p) :: ps

/-- `parse_qsl(qs)` with the default `keep_blank_values=False`: split the
query on `&`, skip empty pieces, split each at the first `=` (pieces without
one, and pieces with an empty value, are skipped), percent-decode both
sides. -/
def parseQsl (q : String) : List (String × String) :=
  (splitAmp q.data).filterMap fun piece =>
    match piece.span (· ≠ '=') with
    | ([], []) => none
    | (_, []) => none
    | (name, _ :: value) =>
      if value.isEmpty then none
      else some (decodePiece name, decodePiece value)

/-- `parse_qs(urlparse(url).query)['json_url'][0]`: the first `json_url`
value, `KeyError` when the parameter is absent. -/
def embedJsonUrl (url : String) : Except Err String :=
  match (parseQsl (urlQuery url)).lookup "json_url" with
  | some v => .ok v
  | none => .error (.keyError "json_url")

/-- `ArteTVEmbedIE._real_extract(url)`: extract `json_url`, then
`ArteTVIE._match_id(json_url)` (raising when the config URL does not match
`ArteTVIE._VALID_URL`), and return the `url_result` pointer
`(json_url, video_id)` that delegates to `ArteTVIE`. -/
def embedExtract (url : String) : Except Err (String × String) :=
  match embedJsonUrl url with
  | .error e => .error e
  | .ok ju =>
    match videoParse ju with
    | some lv => .ok (ju, lv.2)
    | none => .error .invariantViolation

/-- Classification of an Embed URL followed by the host's delegation: resolve
the `url_result` target through `ArteTVIE` (its `ie_key` is forced by the
pointer). -/
def embedDelegate (fetch : String → String → Json) (url : String) :
    Except Err VideoRecord :=
  match embedExtract url with
  | .error e => .error e
  | .ok jv => resolveVideoUrl fetch jv.1

/-! ## Claim-side predicates and concrete fixtures -/

/-- Full match of the source's video-id pattern `\d{6}-\d{3}-[AF]`. -/
def matchesVideoId (s : String) : Bool :=
  match idP s.data with
  | some p => p.2.isEmpty
  | none => false

/-- Full match of the spec's **VideoId** shape `\d{6}-\d{3}-[A-Z]` (the
pattern claim C3 quantifies over), with the final letter ranging over all
uppercase letters. -/
def matchesVideoIdSpec (s : String) : Bool :=
  match s.data with
  | [d1, d2, d3, d4, d5, d6, '-', e1, e2, e3, '-', c] =>
    isDigitC d1 && isDigitC d2 && isDigitC d3 && isDigitC d4 &&
    isDigitC d5 && isDigitC d6 && isDigitC e1 && isDigitC e2 && isDigitC e3 &&
    ('A' ≤ c && c ≤ 'Z')
  | _ => false

/-- The entry rule as claim C6 states it: an entry is dropped exactly when it
has neither a valid direct `url` nor a valid alternate `jsonUrl` (and a
malformed, non-dict entry is skipped); otherwise the target is the direct
`url`, or the `jsonUrl` when no valid direct `url` exists. -/
def entryRuleC6 (v : Json) : Option PlaylistEntry :=
  if isDict v then
    match url_or_none (jget v "url") with
    | some u => some (mkPlaylistEntry v u)
    | none =>
      match url_or_none (jget v "jsonUrl") with
      | some u => some (mkPlaylistEntry v u)
      | none => none
  else none

/-- Whether an `Except` computation succeeded. -/
def isOkE : Except Err α → Bool
  | .ok _ => true
  | .error _ => false

/-- Whether an `Except` computation failed. -/
def isErrorE : Except Err α → Bool
  | .error _ => true
  | .ok _ => false

/-- The fields claim C10 lists as mandatory for video resolution: the
`data.attributes` object holds `rights.begin`, `metadata.providerId`,
`metadata.title`, `metadata.description` and a non-empty `metadata.images`
list. -/
def requiredFieldsPresent (info : Json) : Bool :=
  match getKey info "data" with
  | .error _ => false
  | .ok d =>
    match getKey d "attributes" with
    | .error _ => false
    | .ok a =>
      (match getKey a "rights" with
       | .ok rj => isOkE (getKey rj "begin")
       | .error _ => false) &&
      (match getKey a "metadata" with
       | .ok m =>
         isOkE (getKey m "providerId") && isOkE (getKey m "title") &&
         isOkE (getKey m "description") &&
         (match getKey m "images" with
          | .ok (.arr (_ :: _)) => true
          | _ => false)
       | .error _ => false)

/-- A config document whose `streams` hold an `SQ` entry before an `MQ`
entry — the failing input of claim C2. -/
def c2doc : Json :=
  Json.obj [("data", Json.obj [("attributes", Json.obj
    [("rights", Json.obj [("begin", Json.str "2019-06-28T00:00:00+02:00")]),
     ("streams", Json.arr
       [Json.obj [("mainQuality", Json.obj [("code", Json.str "SQ"), ("label", Json.str "SQ label")]),
                  ("url", Json.str "https://stream.example/sq")],
        Json.obj [("mainQuality", Json.obj [("code", Json.str "MQ"), ("label", Json.str "MQ label")]),
                  ("url", Json.str "https://stream.example/mq")]]),
     ("metadata", Json.obj
       [("providerId", Json.str "123456-789-A"),
        ("title", Json.str "title"),
        ("description", Json.str "description"),
        ("images", Json.arr [Json.obj [("url", Json.str "https://img.example/1")]])])])])]

/-- A config document that is complete except for an empty
`metadata.images` list — a witness input for claim C10. -/
def c10doc : Json :=
  Json.obj [("data", Json.obj [("attributes", Json.obj
    [("rights", Json.obj [("begin", Json.str "2019-06-28T00:00:00+02:00")]),
     ("streams", Json.arr []),
     ("metadata", Json.obj
       [("providerId", Json.str "123456-789-A"),
        ("title", Json.str "title"),
        ("description", Json.str "description"),
        ("images", Json.arr [])])])])]

/-- Raw collection entries exercising every branch of the playlist loop:
a direct-url entry, a non-dict entry, a dict without any url, and a
jsonUrl-only entry. -/
def c6vids : List Json :=
  [Json.obj [("url", Json.str "https://www.arte.tv/en/videos/100000-000-A/a/"),
             ("title", Json.str "first")],
   Json.str "junk",
   Json.obj [("programId", Json.str "100000-001-A")],
   Json.obj [("jsonUrl", Json.str "https://api.arte.tv/api/player/v2/config/en/100000-002-A"),
             ("views", Json.str "42")]]

/-! ## Matcher lemmas -/

theorem lit_sound : ∀ (p s t : List Char), lit p s = some t → s = p ++ t := by
  intro p
  induction p with
  | nil =>
    intro s t h
    simp [lit] at h
    simp [h]
  | cons c ps ih =>
    intro s t h
    cases s with
    | nil => simp [lit] at h
    | cons d s2 =>
      simp only [lit] at h
      split at h
      · rename_i hd
        subst hd
        simp [ih s2 t h]
      · exact absurd h (by simp)

theorem langP_shape (s : List Char) (lt : String × List Char)
    (h : langP s = some lt) :
    s = 'f' :: 'r' :: lt.2 ∨ s = 'd' :: 'e' :: lt.2 ∨ s = 'e' :: 'n' :: lt.2 ∨
    s = 'e' :: 's' :: lt.2 ∨ s = 'i' :: 't' :: lt.2 ∨ s = 'p' :: 'l' :: lt.2 := by
  match s with
  | [] => simp [langP] at h
  | [c] => simp [langP] at h
  | c1 :: c2 :: t =>
    have h2 : (if c1 = 'f' ∧ c2 = 'r' then some ("fr", t)
        else if c1 = 'd' ∧ c2 = 'e' then some ("de", t)
        else if c1 = 'e' ∧ c2 = 'n' then some ("en", t)
        else if c1 = 'e' ∧ c2 = 's' then some ("es", t)
        else if c1 = 'i' ∧ c2 = 't' then some ("it", t)
        else if c1 = 'p' ∧ c2 = 'l' then some ("pl", t)
        else none) = some lt := h
    split_ifs at h2 with h1 h3 h4 h5 h6 h7 <;>
      injection h2 with h8 <;> subst h8 <;> simp_all

theorem langVideosP_inv (s : List Char) (lu : String × List Char)
    (h : langVideosP s = some lu) :
    ∃ t, langP s = some (lu.1, t) ∧ lit "/videos".data t = some lu.2 := by
  unfold langVideosP at h
  simp only [Option.bind_eq_some, Option.map_eq_some'] at h
  obtain ⟨lt, hl, u, hu, hx⟩ := h
  subst hx
  exact ⟨lt.2, hl, hu⟩

/-- A string accepted by the language-plus-`/videos` part of the Video,
Playlist and Category patterns can never start with the Embed pattern's
`player/v` literal. -/
theorem langVideosP_player (s : List Char) (lu : String × List Char)
    (h : langVideosP s = some lu) : lit "player/v".data s = none := by
  obtain ⟨t, hl, hv⟩ := langVideosP_inv s lu h
  have ht := lit_sound _ _ _ hv
  rcases langP_shape s (lu.1, t) hl with hs | hs | hs | hs | hs | hs <;>
    rw [hs] <;> simp only at ht <;> rw [ht] <;> rfl

/-- A URL whose second Video alternative (`api.arte.tv/...`) matches cannot
pass the `(?:www\.)?arte\.tv/` host part of the other patterns. -/
theorem videoAlt2_noHost (s : List Char) (x : String × String)
    (h : videoAlt2 s = some x) : afterHost s = none := by
  unfold videoAlt2 at h
  simp only [Option.bind_eq_some, Option.map_eq_some'] at h
  obtain ⟨r, hs, r1, ha, -⟩ := h
  have hr := lit_sound _ _ _ ha
  unfold afterHost
  rw [hs]
  show lit "arte.tv/".data (optLit "www.".data r) = none
  rw [hr]
  rfl

theorem videoAlt1_inv (s : List Char) (x : String × String)
    (h : videoAlt1 s = some x) :
    ∃ r1 lu u1 p, afterHost s = some r1 ∧ langVideosP r1 = some lu ∧
      lit "/".data lu.2 = some u1 ∧ idP u1 = some p := by
  unfold videoAlt1 at h
  simp only [Option.bind_eq_some, Option.map_eq_some'] at h
  obtain ⟨r1, h1, lu, h2, u1, h3, p, h4, -⟩ := h
  exact ⟨r1, lu, u1, p, h1, h2, h3, h4⟩

theorem playlist_inv (u : String) (h : playlistSuitable u = true) :
    ∃ r1 lu w, afterHost u.data = some r1 ∧ langVideosP r1 = some lu ∧
      lit "/RC-".data lu.2 = some w := by
  unfold playlistSuitable playlistParse at h
  rw [Option.isSome_iff_exists] at h
  obtain ⟨x, h⟩ := h
  simp only [Option.bind_eq_some, Option.map_eq_some'] at h
  obtain ⟨r1, h1, lu, h2, w, h3, -⟩ := h
  exact ⟨r1, lu, w, h1, h2, h3⟩

theorem embed_inv (u : String) (h : embedSuitable u = true) :
    ∃ r1 r2, afterHost u.data = some r1 ∧ lit "player/v".data r1 = some r2 := by
  unfold embedSuitable at h
  split at h
  · rename_i r4 heq
    simp only [Option.bind_eq_some] at heq
    obtain ⟨r1, h1, r2, h2, -⟩ := heq
    exact ⟨r1, r2, h1, h2⟩
  · exact absurd h (by simp)

theorem category_inv (u : String) (h : (categoryParse u).isSome = true) :
    ∃ r1 lu, afterHost u.data = some r1 ∧ langVideosP r1 = some lu := by
  rw [Option.isSome_iff_exists] at h
  obtain ⟨lp, h⟩ := h
  unfold categoryParse at h
  simp only [Option.bind_eq_some] at h
  obtain ⟨r1, h1, lu, h2, -⟩ := h
  exact ⟨r1, lu, h1, h2⟩

theorem idP_head (s : List Char) (p : String × List Char)
    (h : idP s = some p) : ∃ c s2, s = c :: s2 ∧ isDigitC c = true := by
  unfold idP at h
  simp only [Option.bind_eq_some] at h
  obtain ⟨d6, h6, -⟩ := h
  cases s with
  | nil => exact absurd h6 (by rw [show takeDigits 6 ([] : List Char) = none from rfl]; simp)
  | cons c s2 =>
    cases hd : isDigitC c with
    | true => exact ⟨c, s2, rfl, hd⟩
    | false =>
      rw [show takeDigits 6 (c :: s2) =
            if isDigitC c then (takeDigits 5 s2).map fun dr => (c :: dr.1, dr.2)
            else none from rfl, hd] at h6
      exact absurd h6 (by simp)

theorem digit_not_R (c : Char) (h : isDigitC c = true) : ¬(c = 'R') := by
  intro hc
  subst hc
  exact absurd h (by decide)

/-! ## Pairwise exclusivity of the Dispatcher's strategies -/

theorem video_not_embed (u : String) (hv : videoSuitable u = true) :
    embedSuitable u = false := by
  cases he : embedSuitable u with
  | false => rfl
  | true =>
    exfalso
    obtain ⟨r1, r2, ha, hp⟩ := embed_inv u he
    unfold videoSuitable videoParse at hv
    cases halt : videoAlt1 u.data with
    | some x =>
      obtain ⟨r1x, lu, u1, p, ha2, hlv, -, -⟩ := videoAlt1_inv u.data x halt
      rw [ha] at ha2
      injection ha2 with ha2
      subst ha2
      rw [langVideosP_player _ _ hlv] at hp
      exact absurd hp (by simp)
    | none =>
      rw [halt] at hv
      simp only at hv
      rw [Option.isSome_iff_exists] at hv
      obtain ⟨x2, h2⟩ := hv
      rw [videoAlt2_noHost u.data x2 h2] at ha
      exact absurd ha (by simp)

theorem video_not_playlist (u : String) (hv : videoSuitable u = true) :
    playlistSuitable u = false := by
  cases hpl : playlistSuitable u with
  | false => rfl
  | true =>
    exfalso
    obtain ⟨r1, lu, w, ha, hlv, hrc⟩ := playlist_inv u hpl
    unfold videoSuitable videoParse at hv
    cases halt : videoAlt1 u.data with
    | some x =>
      obtain ⟨r1x, lux, u1, p, ha2, hlv2, hsl, hid⟩ := videoAlt1_inv u.data x halt
      rw [ha] at ha2
      injection ha2 with ha2
      subst ha2
      rw [hlv] at hlv2
      injection hlv2 with hlv2
      subst hlv2
      have hw := lit_sound _ _ _ hrc
      rw [hw] at hsl
      rw [show lit "/".data ("/RC-".data ++ w) = some ('R' :: 'C' :: '-' :: w) from rfl] at hsl
      injection hsl with hsl
      obtain ⟨c, s2, hcons, hdig⟩ := idP_head u1 p hid
      rw [← hsl] at hcons
      injection hcons with hc hs2
      exact digit_not_R c hdig hc.symm
    | none =>
      rw [halt] at hv
      simp only at hv
      rw [Option.isSome_iff_exists] at hv
      obtain ⟨x2, h2⟩ := hv
      rw [videoAlt2_noHost u.data x2 h2] at ha
      exact absurd ha (by simp)

theorem embed_not_playlist (u : String) (he : embedSuitable u = true) :
    playlistSuitable u = false := by
  cases hpl : playlistSuitable u with
  | false => rfl
  | true =>
    exfalso
    obtain ⟨r1, r2, ha, hp⟩ := embed_inv u he
    obtain ⟨r1x, lu, w, ha2, hlv, -⟩ := playlist_inv u hpl
    rw [ha] at ha2
    injection ha2 with ha2
    subst ha2
    rw [langVideosP_player _ _ hlv] at hp
    exact absurd hp (by simp)

theorem category_not_embed (u : String) (hc : categorySuitable u = true) :
    embedSuitable u = false := by
  unfold categorySuitable at hc
  simp only [Bool.and_eq_true, Bool.not_eq_true', Bool.or_eq_false_iff] at hc
  obtain ⟨⟨-, -⟩, hcp⟩ := hc
  cases he : embedSuitable u with
  | false => rfl
  | true =>
    exfalso
    obtain ⟨r1, r2, ha, hp⟩ := embed_inv u he
    obtain ⟨r1x, lu, ha2, hlv⟩ := category_inv u hcp
    rw [ha] at ha2
    injection ha2 with ha2
    subst ha2
    rw [langVideosP_player _ _ hlv] at hp
    exact absurd hp (by simp)

/-! ## C1 and C3 -/

/-- **C1** (invariants): for every URL, at most one of the Video, Embed and
Playlist strategies' `suitable` predicates returns true, and the Category
strategy's `suitable` returns true only when Video, Embed and Playlist all
return false. -/
theorem c1_dispatcher_exclusivity (url : String) :
    (¬(videoSuitable url = true ∧ embedSuitable url = true)
      ∧ ¬(videoSuitable url = true ∧ playlistSuitable url = true)
      ∧ ¬(embedSuitable url = true ∧ playlistSuitable url = true))
    ∧ (categorySuitable url = true →
        videoSuitable url = false ∧ embedSuitable url = false
          ∧ playlistSuitable url = false) := by
  refine ⟨⟨?_, ?_, ?_⟩, ?_⟩
  · rintro ⟨hv, he⟩
    rw [video_not_embed url hv] at he
    exact absurd he (by simp)
  · rintro ⟨hv, hp⟩
    rw [video_not_playlist url hv] at hp
    exact absurd hp (by simp)
  · rintro ⟨he, hp⟩
    rw [embed_not_playlist url he] at hp
    exact absurd hp (by simp)
  · intro hc
    have he := category_not_embed url hc
    unfold categorySuitable at hc
    simp only [Bool.and_eq_true, Bool.not_eq_true', Bool.or_eq_false_iff] at hc
    exact ⟨hc.1.1, he, hc.1.2⟩

theorem c1_witness :
    categorySuitable "https://www.arte.tv/en/videos/politics-and-society/" = true
    ∧ (videoSuitable "https://www.arte.tv/en/videos/politics-and-society/" = false
       ∧ embedSuitable "https://www.arte.tv/en/videos/politics-and-society/" = false
       ∧ playlistSuitable "https://www.arte.tv/en/videos/politics-and-society/" = false) :=
  ⟨by decide, (c1_dispatcher_exclusivity "https://www.arte.tv/en/videos/politics-and-society/").2 (by decide)⟩

/-- **C3, counterexample**: `123456-789-B` matches the spec's
`\d{6}-\d{3}-[A-Z]` VideoId shape, yet the Video strategy does not claim
`https://www.arte.tv/fr/videos/123456-789-B` (the source pattern only accepts
`[AF]` as the final letter), and the Category strategy claims it instead. -/
theorem c3_counterexample :
    matchesVideoIdSpec "123456-789-B" = true
    ∧ videoSuitable "https://www.arte.tv/fr/videos/123456-789-B" = false
    ∧ categorySuitable "https://www.arte.tv/fr/videos/123456-789-B" = true := by
  refine ⟨by decide, by decide, by decide⟩

/-- Reduction core shared by the six language cases of the amended C3: once
the concrete URL parts have been folded away (the three `rfl` hypotheses),
a full `[AF]`-id makes Video accept and Embed/Playlist/Category reject. -/
theorem suitable_four (pre id lang : String)
    (hv : videoAlt1 (pre ++ id).data = (idP id.data).map fun q => (lang, q.1))
    (he : embedSuitable (pre ++ id) = false)
    (hpl : playlistParse (pre ++ id) =
      (lit ['R', 'C', '-'] id.data).bind fun w =>
        (takeDigits 6 w).map fun ds => (lang, String.mk ('R' :: 'C' :: '-' :: ds.1)))
    (hid : matchesVideoId id = true) :
    videoSuitable (pre ++ id) = true ∧ embedSuitable (pre ++ id) = false
      ∧ playlistSuitable (pre ++ id) = false ∧ categorySuitable (pre ++ id) = false := by
  cases hp : idP id.data with
  | none =>
    exfalso
    unfold matchesVideoId at hid
    rw [hp] at hid
    exact absurd hid (by simp)
  | some p =>
    obtain ⟨c, s2, hcons, hdig⟩ := idP_head id.data p hp
    have hvs : videoSuitable (pre ++ id) = true := by
      unfold videoSuitable videoParse
      rw [hv, hp]
      rfl
    have hlit : lit ['R', 'C', '-'] id.data = none := by
      rw [hcons]
      show (if c = 'R' then lit ['C', '-'] s2 else none) = none
      rw [if_neg (digit_not_R c hdig)]
    have hps : playlistSuitable (pre ++ id) = false := by
      unfold playlistSuitable
      rw [hpl, hlit]
      rfl
    have hcs : categorySuitable (pre ++ id) = false := by
      unfold categorySuitable
      rw [hvs]
      rfl
    exact ⟨hvs, he, hps, hcs⟩

/-- **C3, amended** (functional correctness): for every supported language
code and every id matching the *source's* pattern `\d{6}-\d{3}-[AF]` (the
spec's `[A-Z]` is too wide — see the counterexample), the URL
`https://www.arte.tv/{lang}/videos/{id}` is claimed by the Video strategy,
and Embed, Playlist and Category do not claim it. -/
theorem c3_video_classification (lang id : String)
    (hl : lang = "fr" ∨ lang = "de" ∨ lang = "en" ∨ lang = "es" ∨ lang = "it" ∨ lang = "pl")
    (hid : matchesVideoId id = true) :
    videoSuitable ("https://www.arte.tv/" ++ lang ++ "/videos/" ++ id) = true
    ∧ embedSuitable ("https://www.arte.tv/" ++ lang ++ "/videos/" ++ id) = false
    ∧ playlistSuitable ("https://www.arte.tv/" ++ lang ++ "/videos/" ++ id) = false
    ∧ categorySuitable ("https://www.arte.tv/" ++ lang ++ "/videos/" ++ id) = false := by
  rcases hl with hl | hl | hl | hl | hl | hl <;> subst hl
  · exact suitable_four "https://www.arte.tv/fr/videos/" id "fr" rfl rfl rfl hid
  · exact suitable_four "https://www.arte.tv/de/videos/" id "de" rfl rfl rfl hid
  · exact suitable_four "https://www.arte.tv/en/videos/" id "en" rfl rfl rfl hid
  · exact suitable_four "https://www.arte.tv/es/videos/" id "es" rfl rfl rfl hid
  · exact suitable_four "https://www.arte.tv/it/videos/" id "it" rfl rfl rfl hid
  · exact suitable_four "https://www.arte.tv/pl/videos/" id "pl" rfl rfl rfl hid

theorem c3_witness :
    videoSuitable ("https://www.arte.tv/" ++ "en" ++ "/videos/" ++ "088501-000-A") = true
    ∧ embedSuitable ("https://www.arte.tv/" ++ "en" ++ "/videos/" ++ "088501-000-A") = false
    ∧ playlistSuitable ("https://www.arte.tv/" ++ "en" ++ "/videos/" ++ "088501-000-A") = false
    ∧ categorySuitable ("https://www.arte.tv/" ++ "en" ++ "/videos/" ++ "088501-000-A") = false :=
  c3_video_classification "en" "088501-000-A"
    (Or.inr (Or.inr (Or.inl rfl))) (by decide)

/-! ## C2, C5, C10 — Video Resolver -/

/-- **C2 (code bug)**: the source computes the quality ranking function
`qfunc = qualities(['MQ','HQ','EQ','SQ'])` (line 65) but never applies it —
the `'quality': qfunc(...)` assignment is commented out (line 88) — so no
built format carries a rank and the emitted list keeps the input order.  On a
config whose streams are `[SQ, MQ]` the emitted order is still `[SQ, MQ]`,
although `MQ` ranks strictly below `SQ` in the fixed order: the output is not
sorted ascending by rank, refuting the claim. -/
theorem c2_formats_not_ranked :
    ((extractFromConfig "123456-789-A" c2doc).map fun r =>
        r.formats.map fun f => (f.format_note, f.quality))
      = .ok [("SQ, SQ label", none), ("MQ, MQ label", none)]
    ∧ qualities ["MQ", "HQ", "EQ", "SQ"] "MQ" < qualities ["MQ", "HQ", "EQ", "SQ"] "SQ" :=
  ⟨rfl, by decide⟩

/-- **C5** (error handling): when the fetched config document lacks the
`data.attributes` object, video resolution fails with exactly the error of
that lookup (the `MalformedResponse` case), propagated unchanged to the
caller — it is never swallowed into a success. -/
theorem c5_malformed_config (video_id : String) (info : Json) (e : Err)
    (h : (match getKey info "data" with
          | .error e2 => Except.error e2
          | .ok d => getKey d "attributes") = Except.error e) :
    extractFromConfig video_id info = .error e := by
  cases h1 : getKey info "data" with
  | error e1 =>
    rw [h1] at h
    have h2 : (Except.error e1 : Except Err Json) = Except.error e := h
    injection h2 with h3
    subst h3
    simp [extractFromConfig, h1]
  | ok d =>
    rw [h1] at h
    have h2 : getKey d "attributes" = Except.error e := h
    simp [extractFromConfig, h1, h2]

theorem c5_witness :
    extractFromConfig "123456-789-A" (Json.obj []) = .error (.keyError "data") :=
  c5_malformed_config "123456-789-A" (Json.obj []) (.keyError "data") rfl

/-- A successful video resolution witnesses every mandatory field lookup:
inversion of the full extraction chain. -/
theorem extract_ok_inv (video_id : String) (info : Json) (r : VideoRecord)
    (hE : extractFromConfig video_id info = .ok r) :
    requiredFieldsPresent info = true := by
  unfold extractFromConfig at hE
  split at hE
  · exact Except.noConfusion hE
  rename_i data h1
  split at hE
  · exact Except.noConfusion hE
  rename_i attributes h2
  split at hE
  · exact Except.noConfusion hE
  rename_i rights h3
  split at hE
  · exact Except.noConfusion hE
  rename_i beginJ h4
  split at hE
  · exact Except.noConfusion hE
  rename_i upload_date h5
  split at hE
  · exact Except.noConfusion hE
  rename_i streamsJ h6
  split at hE
  · exact Except.noConfusion hE
  rename_i streams h7
  split at hE
  · exact Except.noConfusion hE
  rename_i formats0 h8
  split at hE
  · exact Except.noConfusion hE
  rename_i metadata h9
  split at hE
  · exact Except.noConfusion hE
  rename_i providerId h10
  split at hE
  · exact Except.noConfusion hE
  rename_i title h11
  split at hE
  · exact Except.noConfusion hE
  rename_i description h12
  split at hE
  · exact Except.noConfusion hE
  rename_i images h13
  split at hE
  · exact Except.noConfusion hE
  rename_i firstImage h14
  split at hE
  · exact Except.noConfusion hE
  rename_i thumbnail h15
  have himg : ∃ x xs, images = Json.arr (x :: xs) := by
    cases images with
    | arr l =>
      cases l with
      | nil => exact absurd h14 (by simp [jindex0])
      | cons x xs => exact ⟨x, xs, rfl⟩
    | str s =>
      cases s with
      | mk l =>
        cases l with
        | nil => exact absurd h14 (by simp [jindex0])
        | cons c cs =>
          rw [show jindex0 (Json.str ⟨c :: cs⟩) = .ok (.str (String.mk [c])) from rfl] at h14
          injection h14 with h14
          rw [← h14] at h15
          exact absurd h15 (by simp [getKey])
    | null => exact absurd h14 (by simp [jindex0])
    | bool b => exact absurd h14 (by simp [jindex0])
    | num n => exact absurd h14 (by simp [jindex0])
    | obj kvs => exact absurd h14 (by simp [jindex0])
  obtain ⟨x, xs, hx⟩ := himg
  subst hx
  simp [requiredFieldsPresent, h1, h2, h3, h4, h9, h10, h11, h12, h13, isOkE]

/-- **C10** (safety): whenever any of `rights.begin`, `metadata.providerId`,
`metadata.title`, `metadata.description` or a non-empty `metadata.images`
list is missing from the fetched attributes, video resolution fails with an
uncaught lookup error instead of returning a record with that field left
empty. -/
theorem c10_mandatory_fields (video_id : String) (info : Json)
    (h : requiredFieldsPresent info = false) :
    isErrorE (extractFromConfig video_id info) = true := by
  cases hE : extractFromConfig video_id info with
  | error e => rfl
  | ok r =>
    rw [extract_ok_inv video_id info r hE] at h
    exact absurd h (by simp)

theorem c10_witness : isErrorE (extractFromConfig "123456-789-A" c10doc) = true :=
  c10_mandatory_fields "123456-789-A" c10doc rfl

/-! ## C4, C7, C8 — Category Crawler -/

/-- **C4, counterexample**: with a social/open-graph title `"Foo | Bar"`
present (non-empty), the claim's precedence order makes it the playlist title
verbatim; the code instead applies the split-at-`|`-and-trim step to the og
title as well and returns `"Foo"`. -/
theorem c4_counterexample :
    crawlCategory "https://www.arte.tv/en/videos/politics-and-society/"
        ["https://www.arte.tv/en/videos/100000-000-A/x/"]
        (some "Foo | Bar") none none "generic-title"
      = .ok (some { id := "politics-and-society", title := "Foo",
                    description := none,
                    entries := ["https://www.arte.tv/en/videos/100000-000-A/x/"] })
    ∧ ("Foo" : String) ≠ "Foo | Bar" :=
  ⟨rfl, by decide⟩

/-- **C4, amended** (functional correctness): the playlist title of a
successful category crawl is obtained by taking the first truthy of the
social/open-graph title and the `<title>` element text, splitting *that*
value at the *last* `|`, trimming it, and falling back to the generic
URL-derived title only when the trimmed value is empty; a crawl with neither
source available fails instead of reaching the generic fallback. -/
theorem c4_title_resolution (url : String) (links : List String)
    (og titleTag ogDesc : Option String) (generic : String) (r : CategoryResult)
    (h : crawlCategory url links og titleTag ogDesc generic = .ok (some r)) :
    some r.title = (pyOr og titleTag).map fun t =>
      if pyStrip (beforeLastBar t) = "" then generic else pyStrip (beforeLastBar t) := by
  unfold crawlCategory at h
  split at h
  · exact Except.noConfusion h
  rename_i lp hlp
  split at h
  · injection h with h2
    exact Option.noConfusion h2
  rename_i item items hfilter
  split at h
  · exact Except.noConfusion h
  rename_i title htitle
  injection h with h2
  injection h2 with h3
  subst h3
  unfold categoryTitle at htitle
  split at htitle
  · exact Except.noConfusion htitle
  rename_i t hpo
  injection htitle with ht
  rw [hpo]
  simp only [Option.map_some']
  rw [ht]

theorem c4_witness :
    some "Foo" = (pyOr (some "Foo | Bar") none).map fun t =>
      if pyStrip (beforeLastBar t) = "" then "generic-title"
      else pyStrip (beforeLastBar t) :=
  c4_title_resolution "https://www.arte.tv/en/videos/politics-and-society/"
    ["https://www.arte.tv/en/videos/100000-000-A/x/"]
    (some "Foo | Bar") none none "generic-title"
    { id := "politics-and-society", title := "Foo", description := none,
      entries := ["https://www.arte.tv/en/videos/100000-000-A/x/"] } rfl

/-- **C7** (error handling): when no scanned link survives the crawl filter,
the category crawl yields no result — Python `None`, `ok none` here — which
is distinct from every non-empty result and in particular from an empty
collection. -/
theorem c7_empty_candidates (url : String) (links : List String)
    (og titleTag ogDesc : Option String) (generic : String)
    (hcat : (categoryParse url).isSome = true)
    (hempty : links.filter (fun v => v ≠ url && (videoSuitable v || playlistSuitable v)) = []) :
    crawlCategory url links og titleTag ogDesc generic = .ok none
    ∧ ∀ r : CategoryResult,
        (Except.ok none : Except Err (Option CategoryResult)) ≠ .ok (some r) := by
  constructor
  · cases hc : categoryParse url with
    | none => rw [hc] at hcat; exact absurd hcat (by simp)
    | some lp =>
      simp only [crawlCategory, hc]
      rw [hempty]
  · intro r hr
    injection hr with h2
    exact Option.noConfusion h2

theorem c7_witness :
    crawlCategory "https://www.arte.tv/en/videos/politics-and-society/"
      ([] : List String) none none none "g" = .ok none :=
  (c7_empty_candidates "https://www.arte.tv/en/videos/politics-and-society/"
    [] none none none "g" (by decide) rfl).1

/-- **C8** (invariants): a category crawl never lists the crawled page's own
URL among the entries of the collection it produces — the loop drops any
scanned link equal to the page URL before the suitability check. -/
theorem c8_no_self_reference (url : String) (links : List String)
    (og titleTag ogDesc : Option String) (generic : String) (r : CategoryResult)
    (h : crawlCategory url links og titleTag ogDesc generic = .ok (some r)) :
    url ∉ r.entries := by
  unfold crawlCategory at h
  split at h
  · exact Except.noConfusion h
  rename_i lp hlp
  split at h
  · injection h with h2
    exact Option.noConfusion h2
  rename_i item items hfilter
  split at h
  · exact Except.noConfusion h
  rename_i title htitle
  injection h with h2
  injection h2 with h3
  subst h3
  intro hmem
  have hmem2 : url ∈ links.filter
      (fun v => v ≠ url && (videoSuitable v || playlistSuitable v)) := by
    rw [hfilter]
    exact hmem
  have hp := List.of_mem_filter hmem2
  simp at hp

theorem c8_witness :
    "https://www.arte.tv/en/videos/politics-and-society/" ∉
      (CategoryResult.mk "politics-and-society" "T" none
        ["https://www.arte.tv/en/videos/100000-000-A/y/"]).entries :=
  c8_no_self_reference "https://www.arte.tv/en/videos/politics-and-society/"
    ["https://www.arte.tv/en/videos/100000-000-A/y/"] (some "T") none none "g"
    (CategoryResult.mk "politics-and-society" "T" none
      ["https://www.arte.tv/en/videos/100000-000-A/y/"]) rfl

/-! ## C6 — Playlist Aggregator -/

/-- The source's aggregation loop implements exactly the claim's per-entry
rule, entry by entry: skipping an entry never aborts the remaining ones. -/
theorem playlistEntries_filterMap (vs : List Json) :
    playlistEntries vs = vs.filterMap entryRuleC6 := by
  induction vs with
  | nil => rfl
  | cons v vs ih =>
    cases hd : isDict v with
    | false => simp [playlistEntries, entryRuleC6, hd, List.filterMap_cons, ih]
    | true =>
      cases hu : url_or_none (jget v "url") with
      | some u =>
        simp [playlistEntries, entryRuleC6, hd, hu, List.filterMap_cons, ih, Option.orElse]
      | none =>
        cases hj : url_or_none (jget v "jsonUrl") with
        | some u =>
          simp [playlistEntries, entryRuleC6, hd, hu, hj, List.filterMap_cons, ih, Option.orElse]
        | none =>
          simp [playlistEntries, entryRuleC6, hd, hu, hj, List.filterMap_cons, ih, Option.orElse]

/-- **C6** (error handling): a missing top-level `videos` list makes the
aggregation fail with the `MalformedResponse`-style `KeyError`; with the list
present, each entry is kept exactly when it is a dict with a valid direct
`url` or, failing that, a valid alternate `jsonUrl` (which becomes the
target), malformed entries are skipped without aborting the rest, and the
surviving entries keep source order. -/
theorem c6_playlist_aggregation (playlist_id : String)
    (kvs : List (String × Json)) (vs : List Json) :
    (kvs.lookup "videos" = none →
      playlistExtract playlist_id (.obj kvs) = .error (.keyError "videos"))
    ∧ (kvs.lookup "videos" = some (.arr vs) →
      playlistExtract playlist_id (.obj kvs) =
        .ok { id := playlist_id,
              title := jget (.obj kvs) "title",
              description := pyOrJ (jget (.obj kvs) "shortDescription")
                (jget (.obj kvs) "teaserText"),
              entries := vs.filterMap entryRuleC6 }) := by
  constructor
  · intro h
    simp [playlistExtract, getKey, h]
  · intro h
    simp [playlistExtract, getKey, h, pyIter, playlistEntries_filterMap]

theorem c6_witness :
    playlistExtract "RC-000001" (.obj [("videos", .arr c6vids)]) =
      .ok { id := "RC-000001",
            title := jget (.obj [("videos", Json.arr c6vids)]) "title",
            description := pyOrJ (jget (.obj [("videos", Json.arr c6vids)]) "shortDescription")
              (jget (.obj [("videos", Json.arr c6vids)]) "teaserText"),
            entries := c6vids.filterMap entryRuleC6 } :=
  (c6_playlist_aggregation "RC-000001" [("videos", .arr c6vids)] c6vids).2 rfl

/-! ## C9 — Embed delegation -/

/-- **C9** (refinement): classifying an Embed URL whose `json_url` parameter
points at a Video config endpoint with embedded id `vid` and delegating
through the emitted `url_result` yields exactly the record of calling Video
resolution on `(lang, vid)` directly. -/
theorem c9_embed_delegation (fetch : String → String → Json)
    (url ju lang vid : String)
    (_hs : embedSuitable url = true)
    (h1 : embedJsonUrl url = .ok ju)
    (h2 : videoParse ju = some (lang, vid)) :
    embedDelegate fetch url = resolveVideo fetch lang vid := by
  simp [embedDelegate, embedExtract, resolveVideoUrl, h1, h2]

theorem c9_witness :
    embedDelegate (fun _ _ => Json.obj [])
        "https://www.arte.tv/player/v3/index.php?json_url=https://api.arte.tv/api/player/v2/config/de/100605-013-A"
      = resolveVideo (fun _ _ => Json.obj []) "de" "100605-013-A" :=
  c9_embed_delegation (fun _ _ => Json.obj [])
    "https://www.arte.tv/player/v3/index.php?json_url=https://api.arte.tv/api/player/v2/config/de/100605-013-A"
    "https://api.arte.tv/api/player/v2/config/de/100605-013-A" "de" "100605-013-A"
    rfl rfl rfl

end Arte
